import Mathlib

/-!
Verification of the KazSmartChain in-memory blockchain simulation
(`KazSmartChain` in `app.py`): hash-chained blocks with a toy
proof-of-work loop, a transaction ledger, smart-contract deployment,
file anchoring and cross-chain bridge transfers, all held in a single
session state.

The embedding is executable: SHA-256 is implemented over `Nat`
(verified against standard test vectors), Python string formatting of
transaction lists is reproduced character for character, and the
unbounded `while True` mining loop is given explicit fuel.  Calls to
`datetime.now()` and `uuid.uuid4()` are modelled as explicit string
inputs of the operations that perform them.
-/

set_option maxRecDepth 100000

namespace KazChain

/-! ## SHA-256 over `Nat` (hashlib.sha256(...).hexdigest()) -/

/-- Reduce a natural number to a 32-bit word. -/
def w32 (x : Nat) : Nat := x % 4294967296

/-- Rotate a 32-bit word right by `n` bits. -/
def rotr (n x : Nat) : Nat := w32 (Nat.lor (Nat.shiftRight x n) (Nat.shiftLeft x (32 - n)))

/-- Bitwise complement on 32 bits. -/
def notW (x : Nat) : Nat := 4294967295 - x

def bigSigma0 (x : Nat) : Nat := Nat.xor (Nat.xor (rotr 2 x) (rotr 13 x)) (rotr 22 x)

def bigSigma1 (x : Nat) : Nat := Nat.xor (Nat.xor (rotr 6 x) (rotr 11 x)) (rotr 25 x)

def smallSigma0 (x : Nat) : Nat := Nat.xor (Nat.xor (rotr 7 x) (rotr 18 x)) (Nat.shiftRight x 3)

def smallSigma1 (x : Nat) : Nat := Nat.xor (Nat.xor (rotr 17 x) (rotr 19 x)) (Nat.shiftRight x 10)

def chW (x y z : Nat) : Nat := Nat.xor (Nat.land x y) (Nat.land (notW x) z)

def majW (x y z : Nat) : Nat := Nat.xor (Nat.xor (Nat.land x y) (Nat.land x z)) (Nat.land y z)

/-- The 64 SHA-256 round constants. -/
def roundK : List Nat :=
  [1116352408, 1899447441, 3049323471, 3921009573, 961987163, 1508970993, 2453635748, 2870763221,
   3624381080, 310598401, 607225278, 1426881987, 1925078388, 2162078206, 2614888103, 3248222580,
   3835390401, 4022224774, 264347078, 604807628, 770255983, 1249150122, 1555081692, 1996064986,
   2554220882, 2821834349, 2952996808, 3210313671, 3336571891, 3584528711, 113926993, 338241895,
   666307205, 773529912, 1294757372, 1396182291, 1695183700, 1986661051, 2177026350, 2456956037,
   2730485921, 2820302411, 3259730800, 3345764771, 3516065817, 3600352804, 4094571909, 275423344,
   430227734, 506948616, 659060556, 883997877, 958139571, 1322822218, 1537002063, 1747873779,
   1955562222, 2024104815, 2227730452, 2361852424, 2428436474, 2756734187, 3204031479, 3329325298]

structure Digest where
  a : Nat
  b : Nat
  c : Nat
  d : Nat
  e : Nat
  f : Nat
  g : Nat
  h : Nat

def initDigest : Digest :=
  ⟨1779033703, 3144134277, 1013904242, 2773480762, 1359893119, 2600822924, 528734635, 1541459225⟩

/-- Big-endian 8-byte encoding of the message bit length. -/
def lenBytesBE (v : Nat) : List Nat :=
  [Nat.shiftRight v 56 % 256, Nat.shiftRight v 48 % 256, Nat.shiftRight v 40 % 256,
   Nat.shiftRight v 32 % 256, Nat.shiftRight v 24 % 256, Nat.shiftRight v 16 % 256,
   Nat.shiftRight v 8 % 256, v % 256]

/-- SHA-256 padding: append 0x80, zero bytes to 56 mod 64, then the 64-bit bit length. -/
def padMsg (msg : List Nat) : List Nat :=
  let l := msg.length
  let z := (119 - l % 64) % 64
  msg ++ 128 :: List.replicate z 0 ++ lenBytesBE (8 * l)

/-- Group bytes into big-endian 32-bit words. -/
def toWords : List Nat → List Nat
  | a :: b :: c :: d :: rest => (((a * 256 + b) * 256 + c) * 256 + d) :: toWords rest
  | _ => []

/-- Split a word list into 16-word blocks; `fuel` bounds the recursion. -/
def splitBlocks : Nat → List Nat → List (List Nat)
  | 0, _ => []
  | _, [] => []
  | fuel + 1, ws => ws.take 16 :: splitBlocks fuel (ws.drop 16)

/-- Extend the message schedule, keeping accumulated words most-recent-first. -/
def extendSched : Nat → List Nat → List Nat
  | 0, acc => acc
  | n + 1, acc =>
      extendSched n
        (w32 (smallSigma1 (acc.getD 1 0) + acc.getD 6 0 + smallSigma0 (acc.getD 14 0) +
          acc.getD 15 0) :: acc)

/-- The full 64-word message schedule of a 16-word block. -/
def schedule (ws16 : List Nat) : List Nat := (extendSched 48 ws16.reverse).reverse

def compressStep (s : Digest) (w k : Nat) : Digest :=
  let t1 := w32 (s.h + bigSigma1 s.e + chW s.e s.f s.g + k + w)
  let t2 := w32 (bigSigma0 s.a + majW s.a s.b s.c)
  ⟨w32 (t1 + t2), s.a, s.b, s.c, w32 (s.d + t1), s.e, s.f, s.g⟩

def compressBlock (h0 : Digest) (ws16 : List Nat) : Digest :=
  let s := ((schedule ws16).zip roundK).foldl (fun s p => compressStep s p.1 p.2) h0
  ⟨w32 (h0.a + s.a), w32 (h0.b + s.b), w32 (h0.c + s.c), w32 (h0.d + s.d),
   w32 (h0.e + s.e), w32 (h0.f + s.f), w32 (h0.g + s.g), w32 (h0.h + s.h)⟩

def sha256Digest (msg : List Nat) : Digest :=
  let ws := toWords (padMsg msg)
  (splitBlocks ws.length ws).foldl compressBlock initDigest

def hexDigit (n : Nat) : Char := if n < 10 then Char.ofNat (48 + n) else Char.ofNat (87 + n)

def hexWord (x : Nat) : String :=
  String.mk ((List.range 8).map fun i => hexDigit (Nat.shiftRight x (4 * (7 - i)) % 16))

def digestHex (d : Digest) : String :=
  hexWord d.a ++ hexWord d.b ++ hexWord d.c ++ hexWord d.d ++
  hexWord d.e ++ hexWord d.f ++ hexWord d.g ++ hexWord d.h

/-- Hex digest of the SHA-256 of a byte list, as `hashlib.sha256(b).hexdigest()`. -/
def sha256hexBytes (msg : List Nat) : String := digestHex (sha256Digest msg)

/-- UTF-8 encoding of one character. -/
def utf8Char (c : Char) : List Nat :=
  let n := c.toNat
  if n < 128 then [n]
  else if n < 2048 then [192 + n / 64, 128 + n % 64]
  else if n < 65536 then [224 + n / 4096, 128 + n / 64 % 64, 128 + n % 64]
  else [240 + n / 262144, 128 + n / 4096 % 64, 128 + n / 64 % 64, 128 + n % 64]

/-- UTF-8 bytes of a string, as Python `str.encode()`. -/
def strBytes (s : String) : List Nat := (s.data.map utf8Char).flatten

/-- SHA-256 hex digest of a string via its UTF-8 bytes. -/
def sha256hexString (s : String) : String := sha256hexBytes (strBytes s)

/-! ## Data model (the dataclasses of app.py) -/

/-- A Python float, carried by its `repr` string: the simulation never
computes with bridge amounts, it only stores and formats them. -/
structure PyFloat where
  val : String
deriving DecidableEq, Repr

/-- A flat Python value as it occurs in a transaction `data` dict. -/
inductive PyFlat where
  | pstr : String → PyFlat
  | pint : Nat → PyFlat
  | pfloat : PyFloat → PyFlat
deriving DecidableEq, Repr

structure Transaction where
  id : String
  type : String
  from_address : String
  to_address : String
  data : List (String × PyFlat)
  timestamp : String
  blockchain : String
  status : String
  gas_used : Nat
  block_number : Nat
deriving DecidableEq, Repr

structure Block where
  index : Nat
  timestamp : String
  transactions : List Transaction
  previous_hash : String
  hash : String
  nonce : Nat
  miner : String
deriving DecidableEq, Repr

structure AbiParam where
  name : String
  type : String
deriving DecidableEq, Repr

structure AbiEntry where
  name : String
  type : String
  inputs : List AbiParam
  outputs : List AbiParam
deriving DecidableEq, Repr

structure SmartContract where
  address : String
  name : String
  blockchain : String
  abi : List AbiEntry
  bytecode : String
  deployed_at : String
  transactions : Nat
deriving DecidableEq, Repr

structure FileRecord where
  file_id : String
  name : String
  size : Nat
  hash : String
  ipfs_hash : String
  blockchain : String
  tx_hash : String
  timestamp : String
  owner : String
deriving DecidableEq, Repr

/-- A bridge transfer, stored in the session as a plain dict. -/
structure BridgeTransfer where
  id : String
  asset : String
  from_chain : String
  to_chain : String
  amount : PyFloat
  status : String
  timestamp : String
  confirmations : Nat
  required_confirmations : Nat
deriving DecidableEq, Repr

structure Wallet where
  address : String
  balance : Nat
  transactions : Nat
deriving DecidableEq, Repr

/-- The whole mutable state of the simulation, `st.session_state`. -/
structure SessionState where
  blocks : String → List Block
  transactions : List Transaction
  smart_contracts : List SmartContract
  files : List FileRecord
  wallet : Wallet
  bridge_transfers : List BridgeTransfer

/-! ## Python string formatting

`mine_block` hashes the f-string
`f"{index}{timestamp}{transactions}{previous_block.hash}{nonce}"` where
`transactions` is a list of `asdict(tx)` dicts; we reproduce `str()` of
that list exactly (single-quoted strings, `", "` separators, keys in
dataclass field order). -/

/-- The single-quote character used by Python `repr` of strings. -/
def pyQ : String := "\x27"

def pyStr (s : String) : String := pyQ ++ s ++ pyQ

def pyReprFlat : PyFlat → String
  | .pstr s => pyStr s
  | .pint n => toString n
  | .pfloat f => f.val

def pyReprPairs : List (String × PyFlat) → String
  | [] => ""
  | [(k, v)] => pyStr k ++ ": " ++ pyReprFlat v
  | (k, v) :: rest => pyStr k ++ ": " ++ pyReprFlat v ++ ", " ++ pyReprPairs rest

def pyReprDict (d : List (String × PyFlat)) : String := "\x7b" ++ pyReprPairs d ++ "\x7d"

/-- Python `repr(asdict(tx))`. -/
def pyReprTxDict (t : Transaction) : String :=
  "\x7b" ++ pyStr "id" ++ ": " ++ pyStr t.id ++ ", " ++
  pyStr "type" ++ ": " ++ pyStr t.type ++ ", " ++
  pyStr "from_address" ++ ": " ++ pyStr t.from_address ++ ", " ++
  pyStr "to_address" ++ ": " ++ pyStr t.to_address ++ ", " ++
  pyStr "data" ++ ": " ++ pyReprDict t.data ++ ", " ++
  pyStr "timestamp" ++ ": " ++ pyStr t.timestamp ++ ", " ++
  pyStr "blockchain" ++ ": " ++ pyStr t.blockchain ++ ", " ++
  pyStr "status" ++ ": " ++ pyStr t.status ++ ", " ++
  pyStr "gas_used" ++ ": " ++ toString t.gas_used ++ ", " ++
  pyStr "block_number" ++ ": " ++ toString t.block_number ++ "\x7d"

/-- Python `str([asdict(tx), ...])`. -/
def pyReprTxList (txs : List Transaction) : String :=
  "[" ++ String.intercalate ", " (txs.map pyReprTxDict) ++ "]"

/-! ## The KazSmartChain operations -/

/-- Python calculate_hash: SHA-256 hex digest of `data.encode()`. -/
def calculate_hash (data : String) : String := sha256hexString data

/-- Python generate_wallet; `uuid` models the fresh `str(uuid.uuid4())`. -/
def generate_wallet (uuid : String) : Wallet :=
  { address := "0x" ++ (sha256hexString uuid).take 40, balance := 1000000, transactions := 0 }

/-- Python generate_genesis_block; `ts` models `datetime.now().isoformat()`. -/
def generate_genesis_block (chain ts : String) : List Block :=
  [{ index := 0, timestamp := ts, transactions := [], previous_hash := "0",
     hash := calculate_hash ("Genesis Block " ++ chain), nonce := 0, miner := "System" }]

/-- Python generate_ipfs_hash; `uuid` models the fresh `str(uuid.uuid4())`. -/
def generate_ipfs_hash (uuid : String) : String := "Qm" ++ (sha256hexString uuid).take 44

/-- The network identifiers of `self.networks`. -/
def network_ids : List String := ["besu", "fabric", "corda"]

/-- The `Target Blockchain` choices offered by the contract-deployment
page: only Besu, restricting EVM deployment at the presentation layer. -/
def deploy_chain_options : List String := ["besu"]

/-- The chains dict set up by `init_session_state`. -/
def init_blocks (tsBesu tsFabric tsCorda : String) : String → List Block := fun c =>
  if c = "besu" then generate_genesis_block "besu" tsBesu
  else if c = "fabric" then generate_genesis_block "fabric" tsFabric
  else if c = "corda" then generate_genesis_block "corda" tsCorda
  else []

/-- Python init_session_state on a fresh session. -/
def init_session_state (tsBesu tsFabric tsCorda uuidWallet : String) : SessionState :=
  { blocks := init_blocks tsBesu tsFabric tsCorda, transactions := [], smart_contracts := [],
    files := [], wallet := generate_wallet uuidWallet, bridge_transfers := [] }

/-- The mined string `f"{index}{timestamp}{transactions}{previous_hash}{nonce}"`. -/
def blockData (index : Nat) (timestamp txsRepr previous_hash : String) (nonce : Nat) : String :=
  toString index ++ timestamp ++ txsRepr ++ previous_hash ++ toString nonce

/-- The `while True` nonce search of `mine_block`, with explicit fuel;
`none` means the loop has not terminated within `fuel` iterations. -/
def mineLoop (fuel index : Nat) (timestamp txsRepr prevHash : String) (nonce : Nat) :
    Option (Nat × String) :=
  match fuel with
  | 0 => none
  | f + 1 =>
    let hash_value := calculate_hash (blockData index timestamp txsRepr prevHash nonce)
    if hash_value.take 4 = "0000" then some (nonce, hash_value)
    else mineLoop f index timestamp txsRepr prevHash (nonce + 1)

/-- Python mine_block: search a nonce from 0, build the block, append
it to the chain.  `ts` models `datetime.now().isoformat()`; `none` models a
missing chain tip or a search longer than `fuel`. -/
def mine_block (fuel : Nat) (st : SessionState) (chain ts : String) (txs : List Transaction) :
    Option (SessionState × Block) :=
  match (st.blocks chain).getLast? with
  | none => none
  | some previous_block =>
    match mineLoop fuel (st.blocks chain).length ts (pyReprTxList txs) previous_block.hash 0 with
    | none => none
    | some nh =>
      let new_block : Block :=
        { index := (st.blocks chain).length, timestamp := ts, transactions := txs,
          previous_hash := previous_block.hash, hash := nh.2, nonce := nh.1,
          miner := st.wallet.address.take 10 ++ "..." }
      some ({ st with
                blocks := fun c => if c = chain then st.blocks chain ++ [new_block]
                  else st.blocks c },
            new_block)

/-- The fixed mock ABI of `deploy_smart_contract`. -/
def contractAbi : List AbiEntry :=
  [{ name := "constructor", type := "function", inputs := [], outputs := [] },
   { name := "transfer", type := "function",
     inputs := [{ name := "to", type := "address" }, { name := "amount", type := "uint256" }],
     outputs := [{ name := "", type := "bool" }] }]

/-- The part of `deploy_smart_contract` before mining: register the
contract and record the deployment transaction.  `tsAddr` models
`str(datetime.now())` inside the address f-string, `tsDeployed` and
`tsTx` the later `isoformat()` calls, `uuidTx` the transaction id uuid. -/
def deploy_pre (st : SessionState) (name code chain tsAddr tsDeployed uuidTx tsTx : String) :
    SessionState × Transaction × SmartContract :=
  let contract_address := "0x" ++ (sha256hexString (name ++ tsAddr)).take 40
  let bytecode := "0x" ++ String.join (List.replicate 10 (sha256hexString code))
  let contract : SmartContract :=
    { address := contract_address, name := name, blockchain := chain, abi := contractAbi,
      bytecode := bytecode.take 100 ++ "...", deployed_at := tsDeployed, transactions := 0 }
  let st1 := { st with smart_contracts := st.smart_contracts ++ [contract] }
  let tx : Transaction :=
    { id := "0x" ++ (sha256hexString uuidTx).take 64, type := "Contract Deployment",
      from_address := st.wallet.address, to_address := contract_address,
      data := [("contract", .pstr name), ("gas_limit", .pint 3000000)],
      timestamp := tsTx, blockchain := chain, status := "Success", gas_used := 2100000,
      block_number := (st.blocks chain).length }
  ({ st1 with transactions := st1.transactions ++ [tx] }, tx, contract)

/-- Python deploy_smart_contract: register, record the deployment
transaction, then mine a block holding it.  Note: no network check of
any kind is performed. -/
def deploy_smart_contract (fuel : Nat) (st : SessionState)
    (name code chain tsAddr tsDeployed uuidTx tsTx tsMine : String) :
    Option (SessionState × SmartContract) :=
  let pre := deploy_pre st name code chain tsAddr tsDeployed uuidTx tsTx
  match mine_block fuel pre.1 chain tsMine [pre.2.1] with
  | none => none
  | some r => some (r.1, pre.2.2)

/-- The part of `upload_file_to_blockchain` before mining. -/
def upload_pre (st : SessionState) (file_bytes : List Nat)
    (file_name chain uuidFile uuidIpfs uuidTxHash tsRecord tsTx : String) :
    SessionState × Transaction × FileRecord :=
  let file_hash := sha256hexBytes file_bytes
  let ipfs_hash := generate_ipfs_hash uuidIpfs
  let file_record : FileRecord :=
    { file_id := uuidFile, name := file_name, size := file_bytes.length, hash := file_hash,
      ipfs_hash := ipfs_hash, blockchain := chain,
      tx_hash := "0x" ++ (sha256hexString uuidTxHash).take 64, timestamp := tsRecord,
      owner := st.wallet.address }
  let st1 := { st with files := st.files ++ [file_record] }
  let tx : Transaction :=
    { id := file_record.tx_hash, type := "File Upload", from_address := st.wallet.address,
      to_address := "0x0000000000000000000000000000000000000000",
      data := [("file_name", .pstr file_name), ("file_hash", .pstr file_hash),
               ("ipfs_hash", .pstr ipfs_hash), ("size", .pint file_bytes.length)],
      timestamp := tsTx, blockchain := chain, status := "Success", gas_used := 50000,
      block_number := (st.blocks chain).length }
  ({ st1 with transactions := st1.transactions ++ [tx] }, tx, file_record)

/-- Python upload_file_to_blockchain: hash the full content, build the
record, record the anchoring transaction, mine it. -/
def upload_file_to_blockchain (fuel : Nat) (st : SessionState) (file_bytes : List Nat)
    (file_name chain uuidFile uuidIpfs uuidTxHash tsRecord tsTx tsMine : String) :
    Option (SessionState × FileRecord) :=
  let pre := upload_pre st file_bytes file_name chain uuidFile uuidIpfs uuidTxHash tsRecord tsTx
  match mine_block fuel pre.1 chain tsMine [pre.2.1] with
  | none => none
  | some r => some (r.1, pre.2.2)

/-- The bridge-transfer dict built by `bridge_asset` (lines 460-470). -/
def newBridgeTransfer (uuidBridge asset_id from_chain to_chain : String) (amount : PyFloat)
    (tsBridge : String) : BridgeTransfer :=
  { id := uuidBridge, asset := asset_id, from_chain := from_chain, to_chain := to_chain,
    amount := amount, status := "Processing", timestamp := tsBridge, confirmations := 0,
    required_confirmations := 10 }

/-- The lock transaction of `bridge_asset` (lines 475-486). -/
def newBridgeLockTx (st : SessionState) (uuidLock asset_id from_chain to_chain : String)
    (amount : PyFloat) (tsLock : String) : Transaction :=
  { id := "0x" ++ (sha256hexString uuidLock).take 64, type := "Bridge Lock",
    from_address := st.wallet.address, to_address := "0xBridge" ++ from_chain.take 20,
    data := [("asset", .pstr asset_id), ("amount", .pfloat amount),
             ("destination", .pstr to_chain)],
    timestamp := tsLock, blockchain := from_chain, status := "Success", gas_used := 75000,
    block_number := (st.blocks from_chain).length }

/-- The part of `bridge_asset` before mining: append the transfer,
record the lock transaction.  Note: no check that the two chains
differ is performed. -/
def bridge_pre (st : SessionState) (asset_id from_chain to_chain : String) (amount : PyFloat)
    (uuidBridge tsBridge uuidLock tsLock : String) :
    SessionState × Transaction × BridgeTransfer :=
  let bridge_tx := newBridgeTransfer uuidBridge asset_id from_chain to_chain amount tsBridge
  let st1 := { st with bridge_transfers := st.bridge_transfers ++ [bridge_tx] }
  let lock_tx := newBridgeLockTx st uuidLock asset_id from_chain to_chain amount tsLock
  ({ st1 with transactions := st1.transactions ++ [lock_tx] }, lock_tx, bridge_tx)

/-- Python bridge_asset: create the transfer, record the lock
transaction on the source chain, mine it there, return the transfer. -/
def bridge_asset (fuel : Nat) (st : SessionState) (asset_id from_chain to_chain : String)
    (amount : PyFloat) (uuidBridge tsBridge uuidLock tsLock tsMine : String) :
    Option (SessionState × BridgeTransfer) :=
  let pre := bridge_pre st asset_id from_chain to_chain amount uuidBridge tsBridge uuidLock tsLock
  match mine_block fuel pre.1 from_chain tsMine [pre.2.1] with
  | none => none
  | some r => some (r.1, pre.2.2)

/-! ## Session operations

Every state-mutating entry point the presentation layer can invoke,
for stating trace properties.  A fuel-exhausted mine leaves the state
at the point reached before the loop (the Python loop would spin
without returning).  `render_bridge` only displays
`min(stored + randint(1,3), required)` and writes nothing back, so it
is the identity on the state; the random draws are carried as data. -/

inductive SessionOp where
  | mineExplorer (fuel : Nat) (chain ts : String) (tx : Transaction)
  | deployOp (fuel : Nat) (name code chain tsAddr tsDeployed uuidTx tsTx tsMine : String)
  | uploadOp (fuel : Nat) (file_bytes : List Nat)
      (file_name chain uuidFile uuidIpfs uuidTxHash tsRecord tsTx tsMine : String)
  | bridgeOp (fuel : Nat) (asset_id from_chain to_chain : String) (amount : PyFloat)
      (uuidBridge tsBridge uuidLock tsLock tsMine : String)
  | renderBridge (randDraws : List Nat)

def applyOp (st : SessionState) : SessionOp → SessionState
  | .mineExplorer fuel chain ts tx =>
      let st1 := { st with transactions := st.transactions ++ [tx] }
      match mine_block fuel st1 chain ts [tx] with
      | none => st1
      | some r => r.1
  | .deployOp fuel name code chain tsAddr tsDeployed uuidTx tsTx tsMine =>
      let pre := deploy_pre st name code chain tsAddr tsDeployed uuidTx tsTx
      match mine_block fuel pre.1 chain tsMine [pre.2.1] with
      | none => pre.1
      | some r => r.1
  | .uploadOp fuel file_bytes file_name chain uuidFile uuidIpfs uuidTxHash tsRecord tsTx tsMine =>
      let pre := upload_pre st file_bytes file_name chain uuidFile uuidIpfs uuidTxHash tsRecord tsTx
      match mine_block fuel pre.1 chain tsMine [pre.2.1] with
      | none => pre.1
      | some r => r.1
  | .bridgeOp fuel asset_id from_chain to_chain amount uuidBridge tsBridge uuidLock tsLock tsMine =>
      let pre := bridge_pre st asset_id from_chain to_chain amount uuidBridge tsBridge uuidLock tsLock
      match mine_block fuel pre.1 from_chain tsMine [pre.2.1] with
      | none => pre.1
      | some r => r.1
  | .renderBridge _ => st

def applyOps (ops : List SessionOp) (st : SessionState) : SessionState := ops.foldl applyOp st

/-! ## Specification predicates -/

def dummyBlock : Block :=
  { index := 0, timestamp := "", transactions := [], previous_hash := "", hash := "",
    nonce := 0, miner := "" }

def dummyTransfer : BridgeTransfer :=
  { id := "", asset := "", from_chain := "", to_chain := "", amount := ⟨""⟩, status := "",
    timestamp := "", confirmations := 0, required_confirmations := 0 }

/-- The hash-chain invariant claimed of every chain: position 0 is the
genesis shape and every later block links to its predecessor and is
indexed by its position. -/
def chainOk (bs : List Block) : Prop :=
  ∀ i, i < bs.length →
    (bs.getD i dummyBlock).index = i ∧
    (i = 0 → (bs.getD i dummyBlock).previous_hash = "0") ∧
    ∀ j, i = j + 1 → (bs.getD i dummyBlock).previous_hash = (bs.getD j dummyBlock).hash

/-- The digest recomputed from a block's recorded fields, exactly as
the mining loop computes it. -/
def recomputedHash (b : Block) : String :=
  calculate_hash
    (blockData b.index b.timestamp (pyReprTxList b.transactions) b.previous_hash b.nonce)

/-- Stored state of the transfer at index `i` after running `ops`. -/
def transferAfter (st : SessionState) (ops : List SessionOp) (i : Nat) : Option BridgeTransfer :=
  (applyOps ops st).bridge_transfers[i]?

/-! ## Concrete session runs

A fresh session with fixed timestamps and uuids, and one concrete run
of each operation whose mining loop terminates within a few nonces
(the timestamps were chosen so that the kernel can evaluate the runs). -/

def stInit : SessionState :=
  init_session_state "2026-01-01T00:00:00.000001" "2026-01-01T00:00:00.000002"
    "2026-01-01T00:00:00.000003" "f47ac10b-58cc-4372-a567-0e02b2c3d479"

def m1call : Option (SessionState × Block) :=
  mine_block 4 stInit "besu" "2026-01-01T00:01:00.085897" []

def m1out : SessionState := (m1call.getD (stInit, dummyBlock)).1

def m1b : Block := (m1call.getD (stInit, dummyBlock)).2

def m2call : Option (SessionState × SmartContract) :=
  deploy_smart_contract 4 stInit "Token" "contract Token" "fabric"
    "2026-01-01 00:02:00.000001" "2026-01-01T00:02:00.000002"
    "11111111-1111-4111-8111-111111111111" "2026-01-01T00:02:00.000003"
    "2026-01-01T00:02:01.015518"

def m3call : Option (SessionState × BridgeTransfer) :=
  bridge_asset 4 stInit "KZT_100" "besu" "besu" ⟨"100.0"⟩
    "22222222-2222-4222-8222-222222222222" "2026-01-01T00:03:00.000001"
    "33333333-3333-4333-8333-333333333333" "2026-01-01T00:03:00.000002"
    "2026-01-01T00:03:01.003022"

def m4call : Option (SessionState × BridgeTransfer) :=
  bridge_asset 4 stInit "KZT_100" "besu" "fabric" ⟨"100.0"⟩
    "44444444-4444-4444-8444-444444444444" "2026-01-01T00:04:00.000001"
    "55555555-5555-4555-8555-555555555555" "2026-01-01T00:04:00.000002"
    "2026-01-01T00:04:01.030089"

def m4out : SessionState := (m4call.getD (stInit, dummyTransfer)).1

def m4bt : BridgeTransfer := (m4call.getD (stInit, dummyTransfer)).2

def helloBytes : List Nat := [104, 101, 108, 108, 111]

def m5call : Option (SessionState × FileRecord) :=
  upload_file_to_blockchain 4 stInit helloBytes "hello.txt" "besu"
    "66666666-6666-4666-8666-666666666666" "77777777-7777-4777-8777-777777777777"
    "88888888-8888-4888-8888-888888888888" "2026-01-01T00:05:00.000001"
    "2026-01-01T00:05:00.000002" "2026-01-01T00:05:01.055983"

def m6call : Option (SessionState × FileRecord) :=
  upload_file_to_blockchain 4 stInit helloBytes "hello.txt" "besu"
    "99999999-9999-4999-8999-999999999999" "aaaaaaaa-aaaa-4aaa-8aaa-aaaaaaaaaaaa"
    "bbbbbbbb-bbbb-4bbb-8bbb-bbbbbbbbbbbb" "2026-01-01T00:06:00.000001"
    "2026-01-01T00:06:00.000002" "2026-01-01T00:06:01.017984"

def dummyRecord : FileRecord :=
  { file_id := "", name := "", size := 0, hash := "", ipfs_hash := "", blockchain := "",
    tx_hash := "", timestamp := "", owner := "" }

def m5rec : FileRecord := (m5call.getD (stInit, dummyRecord)).2

def m6rec : FileRecord := (m6call.getD (stInit, dummyRecord)).2

/-- The same session with a different wallet: same chains, same tip
hashes, used to exhibit determinism of mining across runs. -/
def stInitW2 : SessionState :=
  { stInit with wallet := generate_wallet "c0000000-0000-4000-8000-0000000000c0" }

def m1wcall : Option (SessionState × Block) :=
  mine_block 7 stInitW2 "besu" "2026-01-01T00:01:00.085897" []

def m1wout : SessionState := (m1wcall.getD (stInitW2, dummyBlock)).1

def m1wb : Block := (m1wcall.getD (stInitW2, dummyBlock)).2

/-- The transfer held by `stC8`. -/
def btC8 : BridgeTransfer :=
  newBridgeTransfer "b0000000-0000-4000-8000-000000000000" "KZT_100" "besu" "fabric"
    ⟨"100.0"⟩ "2026-01-01T00:07:00.000001"

/-- A session holding exactly one freshly initiated bridge transfer. -/
def stC8 : SessionState :=
  { blocks := fun _ => [], transactions := [], smart_contracts := [], files := [],
    wallet := { address := "0xwallet", balance := 1000000, transactions := 0 },
    bridge_transfers := [btC8] }

/-- Claim C8 as stated, over the operations the code offers: for every
stored transfer in its freshly-initiated shape and every operation
sequence, confirmations stay within the requirement and never decrease,
and the stored status changes from Processing to Completed exactly at
the step where confirmations reach the requirement, never reverting
afterwards. -/
def claimC8 : Prop :=
  ∀ (st : SessionState) (i : Nat) (t : BridgeTransfer),
    st.bridge_transfers[i]? = some t →
    t.status = "Processing" → t.confirmations = 0 → t.required_confirmations = 10 →
    ∀ ops : List SessionOp,
      (∀ j t1, transferAfter st (ops.take j) i = some t1 →
        t1.confirmations ≤ t1.required_confirmations) ∧
      (∀ j k t1 t2, j ≤ k → transferAfter st (ops.take j) i = some t1 →
        transferAfter st (ops.take k) i = some t2 → t1.confirmations ≤ t2.confirmations) ∧
      (∃ k t1 t2, transferAfter st (ops.take k) i = some t1 ∧
        transferAfter st (ops.take (k + 1)) i = some t2 ∧
        t1.status = "Processing" ∧ t2.status = "Completed" ∧
        t2.confirmations = t2.required_confirmations ∧
        ∀ m t3, k + 1 ≤ m → transferAfter st (ops.take m) i = some t3 →
          t3.status = "Completed")

/-! ## SHA-256 test vectors -/

theorem sha256_vector_abc :
    sha256hexString "abc" =
      "ba7816bf8f01cfea414140de5dae2223b00361a396177a9cb410ff61f20015ad" := by rfl

theorem sha256_vector_empty :
    sha256hexString "" =
      "e3b0c44298fc1c149afbf4c8996fb92427ae41e4649b934ca495991b7852b855" := by rfl

/-! ## The mining loop -/

/-- A successful `mineLoop` run starting at `n0` returns the least
satisfying nonce at or above `n0`, together with its digest. -/
theorem mineLoop_sound {fuel index : Nat} {ts txsRepr prevHash : String} {n0 n : Nat}
    {h : String} (hm : mineLoop fuel index ts txsRepr prevHash n0 = some (n, h)) :
    n0 ≤ n ∧ h = calculate_hash (blockData index ts txsRepr prevHash n) ∧
    h.take 4 = "0000" ∧
    ∀ m, n0 ≤ m → m < n →
      (calculate_hash (blockData index ts txsRepr prevHash m)).take 4 ≠ "0000" := by
  induction fuel generalizing n0 with
  | zero => simp [mineLoop] at hm
  | succ f ih =>
    simp only [mineLoop] at hm
    by_cases hc : (calculate_hash (blockData index ts txsRepr prevHash n0)).take 4 = "0000"
    · rw [if_pos hc] at hm
      injection hm with hm
      injection hm with e1 e2
      subst e1
      subst e2
      exact ⟨Nat.le_refl _, rfl, hc,
        fun m h1 h2 => absurd (Nat.lt_of_le_of_lt h1 h2) (Nat.lt_irrefl _)⟩
    · rw [if_neg hc] at hm
      obtain ⟨h1, h2, h3, h4⟩ := ih hm
      refine ⟨by omega, h2, h3, ?_⟩
      intro m hm1 hm2
      rcases Nat.eq_or_lt_of_le hm1 with he | hl
      · rw [← he]; exact hc
      · exact h4 m (by omega) hm2

/-- Two successful runs of the nonce search from the same start agree. -/
theorem mineLoop_agree {f1 f2 index : Nat} {ts txsRepr prevHash : String} {n0 : Nat}
    {r1 r2 : Nat × String}
    (h1 : mineLoop f1 index ts txsRepr prevHash n0 = some r1)
    (h2 : mineLoop f2 index ts txsRepr prevHash n0 = some r2) : r1 = r2 := by
  obtain ⟨a1, b1, c1, d1⟩ := mineLoop_sound h1
  obtain ⟨a2, b2, c2, d2⟩ := mineLoop_sound h2
  have hn : r1.1 = r2.1 := by
    rcases Nat.lt_trichotomy r1.1 r2.1 with hlt | heq | hgt
    · exact absurd (b1 ▸ c1) (d2 r1.1 a1 hlt)
    · exact heq
    · exact absurd (b2 ▸ c2) (d1 r2.1 a2 hgt)
  have hh : r1.2 = r2.2 := by rw [b1, b2, hn]
  exact Prod.ext hn hh

/-- Inversion of a successful `mine_block` call: the appended block's
fields and the effect on every component of the session state. -/
theorem mine_block_some {fuel : Nat} {st : SessionState} {chain ts : String}
    {txs : List Transaction} {st2 : SessionState} {b : Block}
    (h : mine_block fuel st chain ts txs = some (st2, b)) :
    ∃ prev n hv,
      (st.blocks chain).getLast? = some prev ∧
      mineLoop fuel (st.blocks chain).length ts (pyReprTxList txs) prev.hash 0 = some (n, hv) ∧
      b = { index := (st.blocks chain).length, timestamp := ts, transactions := txs,
            previous_hash := prev.hash, hash := hv, nonce := n,
            miner := st.wallet.address.take 10 ++ "..." } ∧
      st2.blocks chain = st.blocks chain ++ [b] ∧
      (∀ c, c ≠ chain → st2.blocks c = st.blocks c) ∧
      st2.transactions = st.transactions ∧
      st2.smart_contracts = st.smart_contracts ∧
      st2.files = st.files ∧
      st2.wallet = st.wallet ∧
      st2.bridge_transfers = st.bridge_transfers := by
  unfold mine_block at h
  split at h
  · exact absurd h (by simp)
  next prev hl =>
    split at h
    · exact absurd h (by simp)
    next nh hm =>
      simp only [Option.some.injEq, Prod.mk.injEq] at h
      obtain ⟨hst, hb⟩ := h
      refine ⟨prev, nh.1, nh.2, hl, by rw [hm], ?_, ?_, ?_, ?_, ?_, ?_, ?_, ?_⟩
      · rw [← hb]
      · rw [← hst, ← hb]; simp
      · intro c hc; rw [← hst]; simp [hc]
      · rw [← hst]
      · rw [← hst]
      · rw [← hst]
      · rw [← hst]
      · rw [← hst]

/-! ## The hash-chain invariant -/

theorem chainOk_genesis (chain ts : String) : chainOk (generate_genesis_block chain ts) := by
  intro i hi
  simp only [generate_genesis_block, List.length_singleton, Nat.lt_one_iff] at hi
  subst hi
  refine ⟨rfl, fun _ => rfl, fun j hj => absurd hj (by omega)⟩

/-- Appending a block whose index is the chain length and whose
`previous_hash` is the tip's hash preserves the chain invariant. -/
theorem chainOk_append {bs : List Block} {prev b : Block}
    (hlast : bs.getLast? = some prev) (hok : chainOk bs)
    (hidx : b.index = bs.length) (hprev : b.previous_hash = prev.hash) :
    chainOk (bs ++ [b]) := by
  obtain ⟨ys, hys⟩ := List.getLast?_eq_some_iff.mp hlast
  have hlen : 0 < bs.length := by rw [hys]; simp
  intro i hi
  rw [List.length_append, List.length_singleton] at hi
  rcases Nat.lt_or_ge i bs.length with hlt | hge
  · have e : (bs ++ [b]).getD i dummyBlock = bs.getD i dummyBlock :=
      List.getD_append _ _ _ _ hlt
    obtain ⟨h1, h2, h3⟩ := hok i hlt
    refine ⟨by rw [e]; exact h1, fun h0 => by rw [e]; exact h2 h0, ?_⟩
    intro j hj
    have hjlt : j < bs.length := by omega
    rw [e, List.getD_append _ _ _ _ hjlt]
    exact h3 j hj
  · have hieq : i = bs.length := by omega
    have elast : (bs ++ [b]).getD i dummyBlock = b := by
      subst hieq
      rw [List.getD_append_right _ _ _ _ (Nat.le_refl _)]
      simp
    refine ⟨by rw [elast, hidx, hieq], fun h0 => absurd (h0 ▸ hieq).symm (by omega), ?_⟩
    intro j hj
    have hjlt : j < bs.length := by omega
    rw [elast, hprev, List.getD_append _ _ _ _ hjlt]
    have hjy : j = ys.length := by
      rw [hys] at hieq
      simp only [List.length_append, List.length_singleton] at hieq
      omega
    subst hjy
    rw [hys, List.getD_append_right _ _ _ _ (Nat.le_refl _)]
    simp

/-- C1.  For every network's chain, the block at position 0 has index 0
and previous_hash "0", and every later block links to its predecessor's
hash and carries its own position as index: this holds of the initial
single-genesis chain and is preserved by every block appended through
mining. -/
theorem chain_invariant :
    (∀ chain ts, chainOk (generate_genesis_block chain ts)) ∧
    (∀ fuel st chain ts txs st2 b, chainOk (st.blocks chain) →
      mine_block fuel st chain ts txs = some (st2, b) → chainOk (st2.blocks chain)) := by
  refine ⟨chainOk_genesis, ?_⟩
  intro fuel st chain ts txs st2 b hok h
  obtain ⟨prev, n, hv, hl, _, hb, hbs, -⟩ := mine_block_some h
  rw [hbs]
  exact chainOk_append hl hok (by rw [hb]) (by rw [hb])

/-- Witness for C1: the invariant holds of the concrete besu chain after
one concrete mined block. -/
theorem chain_invariant_witness : chainOk (m1out.blocks "besu") :=
  chain_invariant.2 4 stInit "besu" "2026-01-01T00:01:00.085897" [] m1out m1b
    (chain_invariant.1 "besu" "2026-01-01T00:00:00.000001") (by rfl)

/-! ## Block hashes and the difficulty predicate -/

/-- Counterexample to C2 as stated: the genesis block (here of the besu
chain, created at a concrete timestamp) stores
`calculate_hash ("Genesis Block besu")`, whose first 4 hex characters
are "9891", not "0000", and which differs from the digest recomputed
from the block's recorded fields. -/
theorem genesis_block_violates_difficulty :
    ((generate_genesis_block "besu" "2026-01-01T00:00:00.000001").getD 0 dummyBlock).hash.take 4 ≠
      "0000" ∧
    recomputedHash
        ((generate_genesis_block "besu" "2026-01-01T00:00:00.000001").getD 0 dummyBlock) ≠
      ((generate_genesis_block "besu" "2026-01-01T00:00:00.000001").getD 0 dummyBlock).hash :=
  ⟨by decide, by decide⟩

/-- C2 (amended to mined blocks).  For every block appended through
mining, the SHA-256 digest recomputed from the block's recorded fields
(index, timestamp, transactions, previous_hash, nonce) equals the
block's stored hash and its first 4 hex characters are "0000".  (The
genesis block does not satisfy this: its hash is computed directly over
the fixed genesis string, see the counterexample.) -/
theorem mined_block_hash_wellformed :
    ∀ fuel st chain ts txs st2 b, mine_block fuel st chain ts txs = some (st2, b) →
      recomputedHash b = b.hash ∧ b.hash.take 4 = "0000" := by
  intro fuel st chain ts txs st2 b h
  obtain ⟨prev, n, hv, -, hm, hb, -⟩ := mine_block_some h
  obtain ⟨-, hcalc, htake, -⟩ := mineLoop_sound hm
  subst hb
  exact ⟨hcalc.symm, htake⟩

/-- Witness for C2: the concrete mined block's recomputed digest equals
its stored hash and meets the difficulty prefix. -/
theorem mined_block_hash_wellformed_witness :
    recomputedHash m1b = m1b.hash ∧ m1b.hash.take 4 = "0000" :=
  mined_block_hash_wellformed 4 stInit "besu" "2026-01-01T00:01:00.085897" [] m1out m1b (by rfl)

/-- C3.  A successful mine returns the least non-negative nonce whose
digest (over index, timestamp, serialized transactions, previous hash
and the nonce) starts with "0000", and stores that digest as the
block's hash: the search starts at nonce 0 and stops at the first
satisfying nonce. -/
theorem mine_block_finds_least_nonce :
    ∀ fuel st chain ts txs st2 b prev,
      (st.blocks chain).getLast? = some prev →
      mine_block fuel st chain ts txs = some (st2, b) →
      b.hash =
        calculate_hash
          (blockData (st.blocks chain).length ts (pyReprTxList txs) prev.hash b.nonce) ∧
      b.hash.take 4 = "0000" ∧
      ∀ m, m < b.nonce →
        (calculate_hash
            (blockData (st.blocks chain).length ts (pyReprTxList txs) prev.hash m)).take 4 ≠
          "0000" := by
  intro fuel st chain ts txs st2 b prev hl h
  obtain ⟨prev', n, hv, hl', hm, hb, -⟩ := mine_block_some h
  rw [hl] at hl'
  injection hl' with hp
  subst hp
  obtain ⟨-, hcalc, htake, hleast⟩ := mineLoop_sound hm
  subst hb
  exact ⟨hcalc, htake, fun m hm2 => hleast m (Nat.zero_le m) hm2⟩

/-- Witness for C3: for the concrete mine, the stored hash is the digest
at the returned nonce, it meets the prefix, and nonce 0 (strictly below
the returned nonce 2) fails the prefix test. -/
theorem mine_block_finds_least_nonce_witness :
    m1b.hash =
      calculate_hash
        (blockData (stInit.blocks "besu").length "2026-01-01T00:01:00.085897" (pyReprTxList [])
          ((stInit.blocks "besu").getD 0 dummyBlock).hash m1b.nonce) ∧
    m1b.hash.take 4 = "0000" ∧
    (calculate_hash
        (blockData (stInit.blocks "besu").length "2026-01-01T00:01:00.085897" (pyReprTxList [])
          ((stInit.blocks "besu").getD 0 dummyBlock).hash 0)).take 4 ≠
      "0000" := by
  have h := mine_block_finds_least_nonce 4 stInit "besu" "2026-01-01T00:01:00.085897" []
    m1out m1b ((stInit.blocks "besu").getD 0 dummyBlock) (by rfl) (by rfl)
  exact ⟨h.1, h.2.1, h.2.2 0 (by decide)⟩

/-- C4.  Mining is deterministic: two successful runs on chains with
the same length and the same tip hash, with the same timestamp and the
same transaction content, produce the same nonce and the same hash
(independently of fuel, wallet, or the rest of the state). -/
theorem mining_deterministic :
    ∀ f1 f2 st1 st2 c1 c2 ts txs o1 o2 b1 b2,
      (st1.blocks c1).length = (st2.blocks c2).length →
      ((st1.blocks c1).getLast?).map Block.hash = ((st2.blocks c2).getLast?).map Block.hash →
      mine_block f1 st1 c1 ts txs = some (o1, b1) →
      mine_block f2 st2 c2 ts txs = some (o2, b2) →
      b1.nonce = b2.nonce ∧ b1.hash = b2.hash := by
  intro f1 f2 st1 st2 c1 c2 ts txs o1 o2 b1 b2 hlen htip h1 h2
  obtain ⟨p1, n1, v1, hl1, hm1, hb1, -⟩ := mine_block_some h1
  obtain ⟨p2, n2, v2, hl2, hm2, hb2, -⟩ := mine_block_some h2
  rw [hl1, hl2] at htip
  simp only [Option.map_some', Option.some.injEq] at htip
  rw [hlen, htip] at hm1
  have hag := mineLoop_agree hm1 hm2
  subst hb1
  subst hb2
  simp only [Prod.mk.injEq] at hag
  exact ⟨hag.1, hag.2⟩

/-- Witness for C4: two concrete runs (different fuel, different
wallet, same chain content and timestamp) agree on nonce and hash. -/
theorem mining_deterministic_witness : m1b.nonce = m1wb.nonce ∧ m1b.hash = m1wb.hash :=
  mining_deterministic 4 7 stInit stInitW2 "besu" "besu" "2026-01-01T00:01:00.085897" []
    m1out m1wout m1b m1wb (by rfl) (by rfl) (by rfl) (by rfl)

/-! ## Contract deployment and the missing network check -/

/-- C5 is violated by the code: `deploy_smart_contract` performs no
network check whatsoever (no InvalidNetworkError exists anywhere in the
source; only the UI's selectbox restricts the choice to
`deploy_chain_options = ["besu"]`).  Concretely, deploying "Token" on
the non-EVM network "fabric" succeeds: it returns a contract tagged
"fabric", registers it, records a deployment transaction, and grows
fabric's chain from 1 to 2 blocks. -/
theorem deploy_on_fabric_succeeds_and_mutates :
    (m2call.map fun r =>
      (r.2.blockchain, r.1.smart_contracts.length, r.1.transactions.length,
        (r.1.blocks "fabric").length)) = some ("fabric", 1, 1, 2) ∧
    stInit.smart_contracts.length = 0 ∧ stInit.transactions.length = 0 ∧
    (stInit.blocks "fabric").length = 1 ∧ deploy_chain_options = ["besu"] :=
  ⟨by rfl, by rfl, by rfl, by rfl, by rfl⟩

/-! ## Bridge transfers -/

/-- C6 is violated by the code: `bridge_asset` performs no
same-network check (no SameNetworkError exists anywhere in the source;
only the UI excludes the source chain from the destination choices).
Concretely, bridging from "besu" to "besu" succeeds and creates a
transfer. -/
theorem bridge_same_network_accepted :
    (m3call.map fun r =>
      (r.2.from_chain, r.2.to_chain, r.2.status, r.1.bridge_transfers.length,
        (r.1.blocks "besu").length)) = some ("besu", "besu", "Processing", 1, 2) ∧
    stInit.bridge_transfers.length = 0 :=
  ⟨by rfl, by rfl⟩

/-- C7.  A successful bridge initiation between two (distinct) networks
creates exactly one new BridgeTransfer with confirmations 0, required
confirmations 10 and status Processing, records exactly one new Bridge
Lock transaction with gas 75000 tagged with the source network, and
appends exactly one new block containing exactly that transaction to
the source network's chain (other chains untouched). -/
theorem bridge_initiation_effects :
    ∀ fuel st asset_id from_chain to_chain amount uB tB uL tL tM st2 bt,
      from_chain ≠ to_chain →
      bridge_asset fuel st asset_id from_chain to_chain amount uB tB uL tL tM = some (st2, bt) →
      st2.bridge_transfers = st.bridge_transfers ++ [bt] ∧
      bt.confirmations = 0 ∧ bt.required_confirmations = 10 ∧ bt.status = "Processing" ∧
      ∃ lock_tx : Transaction,
        st2.transactions = st.transactions ++ [lock_tx] ∧
        lock_tx.type = "Bridge Lock" ∧ lock_tx.gas_used = 75000 ∧
        lock_tx.blockchain = from_chain ∧
        ∃ nb : Block, st2.blocks from_chain = st.blocks from_chain ++ [nb] ∧
          nb.transactions = [lock_tx] ∧
          ∀ c, c ≠ from_chain → st2.blocks c = st.blocks c := by
  intro fuel st asset_id from_chain to_chain amount uB tB uL tL tM st2 bt hne h
  unfold bridge_asset at h
  dsimp only at h
  split at h
  · exact absurd h (by simp)
  next r hm =>
    simp only [Option.some.injEq, Prod.mk.injEq] at h
    obtain ⟨hst, hbt⟩ := h
    obtain ⟨prev, n, hv, -, -, hb, hbs, hoth, htx, -, -, -, hbr⟩ := mine_block_some hm
    subst hst
    subst hbt
    refine ⟨?_, rfl, rfl, rfl,
      newBridgeLockTx st uL asset_id from_chain to_chain amount tL, ?_, rfl, rfl, rfl,
      r.2, ?_, ?_, ?_⟩
    · rw [hbr]; rfl
    · rw [htx]; rfl
    · rw [hbs, hb]; rfl
    · rw [hb]; exact rfl
    · intro c hc; rw [hoth c hc]; rfl

/-- Witness for C7: the concrete besu→fabric bridge initiation. -/
theorem bridge_initiation_effects_witness :
    m4out.bridge_transfers = stInit.bridge_transfers ++ [m4bt] ∧
    m4bt.confirmations = 0 ∧ m4bt.required_confirmations = 10 ∧ m4bt.status = "Processing" ∧
    ∃ lock_tx : Transaction,
      m4out.transactions = stInit.transactions ++ [lock_tx] ∧
      lock_tx.type = "Bridge Lock" ∧ lock_tx.gas_used = 75000 ∧
      lock_tx.blockchain = "besu" ∧
      ∃ nb : Block, m4out.blocks "besu" = stInit.blocks "besu" ++ [nb] ∧
        nb.transactions = [lock_tx] ∧
        ∀ c, c ≠ "besu" → m4out.blocks c = stInit.blocks c :=
  bridge_initiation_effects 4 stInit "KZT_100" "besu" "fabric" ⟨"100.0"⟩
    "44444444-4444-4444-8444-444444444444" "2026-01-01T00:04:00.000001"
    "55555555-5555-4555-8555-555555555555" "2026-01-01T00:04:00.000002"
    "2026-01-01T00:04:01.030089" m4out m4bt (by decide) (by rfl)

/-! ## The bridge-transfer state machine -/

/-- Every operation either leaves the stored transfer list unchanged or
appends to it; existing entries are never modified. -/
theorem applyOp_bridge_appends (st : SessionState) (op : SessionOp) :
    ∃ tail, (applyOp st op).bridge_transfers = st.bridge_transfers ++ tail := by
  cases op with
  | mineExplorer fuel chain ts tx =>
    dsimp only [applyOp]
    cases hm : mine_block fuel { st with transactions := st.transactions ++ [tx] } chain ts [tx]
      with
    | none => exact ⟨[], by rw [List.append_nil]⟩
    | some r =>
      obtain ⟨-, -, -, -, -, -, -, -, -, -, -, -, hbr⟩ := mine_block_some hm
      exact ⟨[], by rw [hbr, List.append_nil]⟩
  | deployOp fuel name code chain tsAddr tsDeployed uuidTx tsTx tsMine =>
    dsimp only [applyOp]
    cases hm : mine_block fuel
        (deploy_pre st name code chain tsAddr tsDeployed uuidTx tsTx).1 chain tsMine
        [(deploy_pre st name code chain tsAddr tsDeployed uuidTx tsTx).2.1] with
    | none => exact ⟨[], by rw [List.append_nil]; exact rfl⟩
    | some r =>
      obtain ⟨-, -, -, -, -, -, -, -, -, -, -, -, hbr⟩ := mine_block_some hm
      exact ⟨[], by rw [hbr, List.append_nil]; exact rfl⟩
  | uploadOp fuel file_bytes file_name chain uuidFile uuidIpfs uuidTxHash tsRecord tsTx tsMine =>
    dsimp only [applyOp]
    cases hm : mine_block fuel
        (upload_pre st file_bytes file_name chain uuidFile uuidIpfs uuidTxHash tsRecord tsTx).1
        chain tsMine
        [(upload_pre st file_bytes file_name chain uuidFile uuidIpfs uuidTxHash tsRecord
            tsTx).2.1] with
    | none => exact ⟨[], by rw [List.append_nil]; exact rfl⟩
    | some r =>
      obtain ⟨-, -, -, -, -, -, -, -, -, -, -, -, hbr⟩ := mine_block_some hm
      exact ⟨[], by rw [hbr, List.append_nil]; exact rfl⟩
  | bridgeOp fuel asset_id from_chain to_chain amount uuidBridge tsBridge uuidLock tsLock tsMine =>
    dsimp only [applyOp]
    cases hm : mine_block fuel
        (bridge_pre st asset_id from_chain to_chain amount uuidBridge tsBridge uuidLock
            tsLock).1 from_chain tsMine
        [(bridge_pre st asset_id from_chain to_chain amount uuidBridge tsBridge uuidLock
            tsLock).2.1] with
    | none =>
      exact ⟨[newBridgeTransfer uuidBridge asset_id from_chain to_chain amount tsBridge], rfl⟩
    | some r =>
      obtain ⟨-, -, -, -, -, -, -, -, -, -, -, -, hbr⟩ := mine_block_some hm
      exact ⟨[newBridgeTransfer uuidBridge asset_id from_chain to_chain amount tsBridge],
        by rw [hbr]; rfl⟩
  | renderBridge randDraws => exact ⟨[], by simp [applyOp]⟩

/-- C8 (amended).  After initiation a stored bridge transfer never
changes under any sequence of operations: the session only ever appends
new transfers, and `render_bridge` writes nothing back.  Hence its
confirmations stay 0 forever (so never exceed the requirement and never
decrease) and its status stays "Processing" forever: no transition to
Completed ever occurs in stored state. -/
theorem bridge_transfer_state_frozen :
    ∀ (ops : List SessionOp) (st : SessionState) (i : Nat) (t : BridgeTransfer),
      st.bridge_transfers[i]? = some t → transferAfter st ops i = some t := by
  intro ops
  induction ops with
  | nil => intro st i t h; exact h
  | cons op rest ih =>
    intro st i t h
    have hstep : (applyOp st op).bridge_transfers[i]? = some t := by
      obtain ⟨tail, htail⟩ := applyOp_bridge_appends st op
      have hi : i < st.bridge_transfers.length := (List.getElem?_eq_some_iff.mp h).1
      rw [htail, List.getElem?_append_left hi]
      exact h
    exact ih (applyOp st op) i t hstep

/-- Witness for the amended C8: the concrete freshly initiated transfer
is untouched by a render step (its status still "Processing", its
confirmations still 0). -/
theorem bridge_transfer_state_frozen_witness :
    transferAfter stC8 [SessionOp.renderBridge [3, 1]] 0 = some btC8 :=
  bridge_transfer_state_frozen [SessionOp.renderBridge [3, 1]] stC8 0 btC8 (by rfl)

/-- Counterexample to C8 as stated: no operation sequence ever flips a
stored transfer's status to Completed — the claimed
Processing→Completed step does not exist (shown on a concrete session
holding one freshly initiated transfer, with the empty sequence). -/
theorem bridge_completion_never_happens : ¬ claimC8 := by
  intro hcl
  obtain ⟨-, -, k, t1, t2, h1, h2, hp, hc, -⟩ :=
    hcl stC8 0 btC8 (by rfl) (by rfl) (by rfl) (by rfl) []
  rw [List.take_nil] at h2
  have e : transferAfter stC8 [] 0 = some btC8 := rfl
  rw [e] at h2
  injection h2 with h2
  rw [← h2] at hc
  exact absurd hc (by decide)

/-! ## File anchoring -/

/-- A successful upload returns exactly the record built before mining. -/
theorem upload_some_record {fuel : Nat} {st : SessionState} {file_bytes : List Nat}
    {file_name chain uf ui uth tr tt tm : String} {o : SessionState} {r : FileRecord}
    (h : upload_file_to_blockchain fuel st file_bytes file_name chain uf ui uth tr tt tm =
      some (o, r)) :
    r = (upload_pre st file_bytes file_name chain uf ui uth tr tt).2.2 := by
  unfold upload_file_to_blockchain at h
  dsimp only at h
  split at h
  · exact absurd h (by simp)
  next p hm =>
    simp only [Option.some.injEq, Prod.mk.injEq] at h
    exact h.2.symm

/-- C9.  Anchoring the same byte content twice (with distinct fresh
uuids, as `uuid.uuid4()` produces) yields two FileRecords with distinct
file_id values but identical content hashes, the content hash being the
SHA-256 digest of the full byte content. -/
theorem anchored_records_distinct_ids_same_hash :
    ∀ f1 f2 s1 s2 bytes nm1 nm2 c1 c2 uf1 uf2 ui1 ui2 ut1 ut2 tr1 tr2 tt1 tt2 tm1 tm2 o1 o2
      r1 r2,
      uf1 ≠ uf2 →
      upload_file_to_blockchain f1 s1 bytes nm1 c1 uf1 ui1 ut1 tr1 tt1 tm1 = some (o1, r1) →
      upload_file_to_blockchain f2 s2 bytes nm2 c2 uf2 ui2 ut2 tr2 tt2 tm2 = some (o2, r2) →
      r1.file_id ≠ r2.file_id ∧ r1.hash = r2.hash ∧ r1.hash = sha256hexBytes bytes := by
  intro f1 f2 s1 s2 bytes nm1 nm2 c1 c2 uf1 uf2 ui1 ui2 ut1 ut2 tr1 tr2 tt1 tt2 tm1 tm2 o1 o2
    r1 r2 hne h1 h2
  have e1 := upload_some_record h1
  have e2 := upload_some_record h2
  subst e1
  subst e2
  exact ⟨hne, rfl, rfl⟩

/-- Witness for C9: two concrete anchors of the bytes of "hello" on
besu produce records with distinct ids and the same SHA-256 digest. -/
theorem anchored_records_distinct_ids_same_hash_witness :
    m5rec.file_id ≠ m6rec.file_id ∧ m5rec.hash = m6rec.hash ∧
    m5rec.hash = sha256hexBytes helloBytes :=
  anchored_records_distinct_ids_same_hash 4 4 stInit stInit helloBytes "hello.txt" "hello.txt"
    "besu" "besu" "66666666-6666-4666-8666-666666666666" "99999999-9999-4999-8999-999999999999"
    "77777777-7777-4777-8777-777777777777" "aaaaaaaa-aaaa-4aaa-8aaa-aaaaaaaaaaaa"
    "88888888-8888-4888-8888-888888888888" "bbbbbbbb-bbbb-4bbb-8bbb-bbbbbbbbbbbb"
    "2026-01-01T00:05:00.000001" "2026-01-01T00:06:00.000001" "2026-01-01T00:05:00.000002"
    "2026-01-01T00:06:00.000002" "2026-01-01T00:05:01.055983" "2026-01-01T00:06:01.017984"
    ((m5call.getD (stInit, dummyRecord)).1) ((m6call.getD (stInit, dummyRecord)).1) m5rec m6rec
    (by decide) (by rfl) (by rfl)

/-! ## The stored miner identifier -/

/-- Counterexample to C10 as stated: the concrete mined block stores a
truncated miner identifier, not the caller's full wallet address. -/
theorem block_miner_not_full_address :
    m1b.miner ≠ stInit.wallet.address ∧
    m1b.miner = stInit.wallet.address.take 10 ++ "..." :=
  ⟨by decide, by rfl⟩

/-- C10 (amended).  Every successful mine stores, as the block's miner
field, the caller's wallet address truncated to its first 10 characters
followed by "...": the full address is not retained in the block. -/
theorem mined_block_miner_truncated :
    ∀ fuel st chain ts txs st2 b, mine_block fuel st chain ts txs = some (st2, b) →
      b.miner = st.wallet.address.take 10 ++ "..." := by
  intro fuel st chain ts txs st2 b h
  obtain ⟨prev, n, hv, -, -, hb, -⟩ := mine_block_some h
  rw [hb]

/-- Witness for the amended C10, at the concrete mined block. -/
theorem mined_block_miner_truncated_witness :
    m1b.miner = stInit.wallet.address.take 10 ++ "..." :=
  mined_block_miner_truncated 4 stInit "besu" "2026-01-01T00:01:00.085897" [] m1out m1b (by rfl)

end KazChain
